import Mathlib

/-!
Shallow embedding of `src/build.py` (SpeedGauge/statsd docker build script).

The script parses command-line flags, optionally loads a dotenv file,
resolves repository / tags / registry / credentials from flags and the
process environment, and then either

  * Amazon mode (`--aws`): obtains ECR authorization data, and for each
    returned entry logs in and runs the build/push loop `_build`, or
  * vanilla mode: resolves a registry and optional login, then runs `_build`.

External collaborators (docker client, boto3 ECR client, base64 decoding,
the streamed push progress lines) are modelled as oracles; the observable
behaviour of a run is the list of operations issued to them (`Ev`), paired
with an optional fatal error (a Python exception escaping the script).
-/

/-- Process environment: an association list of variable names to values,
names unique (Python `os.environ` is a dict). Lookup returns the first
binding, which is the only one when keys are unique. -/
abbrev Env := List (String × String)

/-- Model of `os.environ.get(k)`. -/
def environ_get (env : Env) (k : String) : Option String :=
  (List.find? (fun kv => kv.1 == k) env).map Prod.snd

/-- Model of `os.environ.get(k, d)`. -/
def environ_get_d (env : Env) (k d : String) : String :=
  (environ_get env k).getD d

/-- Python `x or d` for an optional string flag `x`: argparse stores `None`
for an absent flag, and both `None` and the empty string are falsy. -/
def py_or_str (x : Option String) (d : String) : String :=
  match x with
  | some s => if s = "" then d else s
  | none => d

/-- Python `x or d` where the fallback `d` is itself optional
(`os.environ.get` without a default returns `None` when unset). -/
def py_or_opt (x : Option String) (d : Option String) : Option String :=
  match x with
  | some s => if s = "" then d else s
  | none => d

/-- Python `k.startswith(p)`: the first `len(p)` characters of `k` equal `p`. -/
def startswith (k p : String) : Bool :=
  k.data.take p.data.length == p.data

/-- Model of Python `str.replace(pat, rep)` on character lists, with the
string's length as structural fuel (each step consumes at least one
character, so the fuel never runs out on the actual argument). The call
site only uses the nonempty pattern `"https://"`. -/
def replace_go (pat rep : List Char) : Nat → List Char → List Char
  | _, [] => []
  | 0, l => l
  | fuel + 1, c :: cs =>
    if pat ≠ [] ∧ (c :: cs).take pat.length = pat then
      rep ++ replace_go pat rep fuel (cs.drop (pat.length - 1))
    else
      c :: replace_go pat rep fuel cs

/-- Python `s.replace(pat, rep)` (replaces every occurrence). -/
def py_replace (s pat rep : String) : String :=
  String.mk (replace_go pat.data rep.data s.data.length s.data)

/-- Splitting a character list at every occurrence of `sep`;
`[] ↦ [[]]`, matching Python `''.split(':') == ['']`. -/
def split_on_char (sep : Char) : List Char → List (List Char)
  | [] => [[]]
  | c :: cs =>
    match split_on_char sep cs with
    | [] => if c = sep then [[], []] else [[c]]
    | h :: t => if c = sep then [] :: h :: t else (c :: h) :: t

/-- Python `s.split(':')`. -/
def py_split_colon (s : String) : List String :=
  (split_on_char ':' s.data).map String.mk

/-- Parsed command-line arguments of `src/build.py` (`args` after
`parser.parse_args()`). `env` is `some name` for the `-e` flag (default
`some ".env"`) and `none` for `--no-env` (the `store_false` action);
`tags` and `amazon_registry_ids` are `nargs='*'` flags, `none` when the
flag is absent and `some []` when given with zero values. -/
structure Args where
  env : Option String
  path : String
  tags : Option (List String)
  will_add_latest : Bool
  repository : Option String
  registry : Option String
  will_push : Bool
  will_login : Bool
  login_user : Option String
  login_password : Option String
  is_amazon_mode : Bool
  amazon_region : Option String
  amazon_registry_ids : Option (List String)

/-- One entry of the ECR `get_authorization_token` response's
`authorizationData` list. -/
structure AuthData where
  proxyEndpoint : String
  authorizationToken : String
deriving DecidableEq, Repr

/-- External collaborators, as oracles: `b64decode` models
`base64.b64decode` on the tokens the run decodes; `auth_response` is the
`authorizationData` list the ECR client returns for a given optional
`registryIds` argument; `push_lines` is the streamed progress sequence
`docker_client.images.push(repo_ref, tag=tag, stream=True)` yields. -/
structure Collab where
  b64decode : String → String
  auth_response : Option (List String) → List AuthData
  push_lines : String → String → List String

/-- Observable operations issued to the collaborators during a run, plus
the debug-level log records the script emits for streamed push progress
(the only log calls a claim refers to). -/
inductive Ev where
  | ecr_client (region : Option String)
  | get_auth_token (registryIds : Option (List String))
  | login (user pswd : Option String) (registry : String)
  | build (path tag : String) (rm pull : Bool) (buildargs : List (String × String))
  | push (repo_ref tag : String) (stream : Bool)
  | log_debug (line : String)
deriving DecidableEq, Repr

/-- Model of python-dotenv `load_dotenv` with the default `override=False`:
each binding from the file is added only when the name is not already in
the environment. -/
def load_into (env0 : Env) (bs : List (String × String)) : Env :=
  bs.foldl (fun e kv => if (environ_get e kv.1).isSome then e else e ++ [kv]) env0

/-- Lines 175-178 of `src/build.py`:

    if args.env:
        env = find_dotenv(args.env)
        log.info('loading environment from {}', env)
        load_dotenv(env)

`fs name` models `find_dotenv(name)`'s upward search: the bindings of the
nearest file called `name` in the working directory or an ancestor, or
`none` when no such file exists — python-dotenv's `find_dotenv` then
returns the empty path `''` (it raises only with
`raise_error_if_not_found=True`, which the script does not pass), and
`load_dotenv('')` loads nothing and raises no error. `args.env` is falsy
(`--no-env`, or an empty `-e` value) ⇒ the whole block is skipped. -/
def load_dotenv_step (fs : String → Option Env) (a : Args) (env0 : Env) : Env :=
  match a.env with
  | none => env0
  | some name =>
    if name = "" then env0
    else
      match fs name with
      | some bs => load_into env0 bs
      | none => env0

/-- Line 182: `repo = args.repository or os.environ.get('BUILD_REPOSITORY', '')`. -/
def resolve_repository (a : Args) (env : Env) : String :=
  py_or_str a.repository (environ_get_d env "BUILD_REPOSITORY" "")

/-- Line 206: `registry = args.registry or os.environ.get('BUILD_REGISTRY', '')`
(vanilla branch only). -/
def resolve_registry (a : Args) (env : Env) : String :=
  py_or_str a.registry (environ_get_d env "BUILD_REGISTRY" "")

/-- Lines 183-185:

    tags = set(args.tags or {os.environ.get('BUILD_TAG', 'latest')})
    if args.will_add_latest:
        tags.add('latest')

The Python set is represented by a duplicate-free list (one enumeration of
the set; claims about it are stated via membership / `toFinset`). -/
def resolve_tags (a : Args) (env : Env) : List String :=
  let base : List String :=
    match a.tags with
    | some (t :: ts) => (t :: ts).dedup
    | _ => [environ_get_d env "BUILD_TAG" "latest"]
  if a.will_add_latest then
    (if "latest" ∈ base then base else base ++ ["latest"])
  else base

/-- Line 186:
`build_args = {k[10:]: v for k, v in os.environ.items() if k.startswith('BUILD_ARG_')}`
(`'BUILD_ARG_'` has 10 characters). -/
def build_args (env : Env) : List (String × String) :=
  (env.filter fun kv => startswith kv.1 "BUILD_ARG_").map
    fun kv => (String.mk (kv.1.data.drop 10), kv.2)

/-- Lines 43-63, the `_build` helper: for each tag, a build call with the
image reference `registry/repo:tag`, `rm=True`, `pull=True` and the
module-level `build_args` map (passed here explicitly as `bargs`); then,
when `will_push`, a push call for `registry/repo` at that tag with
`stream=True`, each streamed line forwarded to `log.debug`. -/
def _build (path registry repo : String) (tags : List String)
    (bargs : List (String × String)) (pl : String → String → List String)
    (will_push : Bool) : List Ev :=
  (tags.map fun tag =>
    Ev.build path (registry ++ "/" ++ repo ++ ":" ++ tag) true true bargs ::
    (if will_push then
      Ev.push (registry ++ "/" ++ repo) tag true ::
        (pl (registry ++ "/" ++ repo) tag).map Ev.log_debug
    else [])).flatten

/-- Lines 194-197: `if args.amazon_registry_ids:` — the `registryIds`
keyword is passed exactly when the flag's value is truthy, i.e. a
nonempty list; an absent flag (`None`) or `--amazon-registry-ids` with
zero values (`[]`) leads to the unscoped call. -/
def registry_scope (a : Args) : Option (List String) :=
  match a.amazon_registry_ids with
  | some (i :: is) => some (i :: is)
  | _ => none

/-- Lines 199-204, the loop body per `auth` entry:

    registry = auth['proxyEndpoint'].replace('https://', '')
    creds = base64.b64decode(auth['authorizationToken'])
    user, pswd = creds.split(':')
    docker_client.login(user, pswd, registry=registry)
    _build(docker_client, path, registry, repo, tags, will_push=args.will_push)

The tuple unpacking raises `ValueError` unless the split yields exactly
two parts, i.e. unless the decoded token contains exactly one `':'`;
events of earlier iterations are kept, the failing iteration issues
nothing. -/
def amazon_cycles (c : Collab) (path : String) (will_push : Bool)
    (repo : String) (tags : List String) (bargs : List (String × String)) :
    List AuthData → List Ev × Option String
  | [] => ([], none)
  | ad :: rest =>
    let registry := py_replace ad.proxyEndpoint "https://" ""
    match py_split_colon (c.b64decode ad.authorizationToken) with
    | [user, pswd] =>
      let evs := Ev.login (some user) (some pswd) registry ::
        _build path registry repo tags bargs c.push_lines will_push
      let r := amazon_cycles c path will_push repo tags bargs rest
      (evs ++ r.1, r.2)
    | _ => ([], some "ValueError: credential token does not unpack into user, pswd")

/-- Lines 189-204, the Amazon branch: create the ECR client with
`region_name=args.amazon_region` (the flag value only — the code never
reads `BUILD_AMAZON_REGION`), issue the single authorization call, then
run the per-entry login/build/push cycles. -/
def run_amazon (a : Args) (c : Collab) (repo : String) (tags : List String)
    (bargs : List (String × String)) : List Ev × Option String :=
  let scope := registry_scope a
  let r := amazon_cycles c a.path a.will_push repo tags bargs (c.auth_response scope)
  (Ev.ecr_client a.amazon_region :: Ev.get_auth_token scope :: r.1, r.2)

/-- Lines 205-214, the vanilla branch: resolve the registry, log in unless
`--no-login` was given, then run `_build`. -/
def run_vanilla (a : Args) (env : Env) (c : Collab) (repo : String)
    (tags : List String) (bargs : List (String × String)) : List Ev × Option String :=
  let registry := resolve_registry a env
  let login_evs :=
    if a.will_login then
      [Ev.login (py_or_opt a.login_user (environ_get env "BUILD_USER"))
        (py_or_opt a.login_password (environ_get env "BUILD_PASSWORD")) registry]
    else []
  (login_evs ++ _build a.path registry repo tags bargs c.push_lines a.will_push, none)

/-- The `__main__` body after argument parsing (lines 173-216): dotenv
loading, configuration resolution, then the Amazon or vanilla branch.
The result is the list of operations issued to the collaborators and the
fatal error, if any, that ends the run. -/
def run_main (fs : String → Option Env) (a : Args) (env0 : Env) (c : Collab) :
    List Ev × Option String :=
  let env := load_dotenv_step fs a env0
  let repo := resolve_repository a env
  let tags := resolve_tags a env
  let bargs := build_args env
  if a.is_amazon_mode then
    run_amazon a c repo tags bargs
  else
    run_vanilla a env c repo tags bargs

/-- Modelled from the spec's words for the tag-resolution claim (the
reference definition a refinement claim compares the code against): if the
tag flag supplies one or more tags, the set of those tags; otherwise the
singleton containing the `BUILD_TAG` environment value if set, else the
singleton `{"latest"}`; and if the always-latest flag is set, `"latest"`
is additionally a member of the final set. -/
def reference_tag_set (a : Args) (env : Env) : Finset String :=
  let base : Finset String :=
    match a.tags with
    | some (t :: ts) => (t :: ts).toFinset
    | _ =>
      match environ_get env "BUILD_TAG" with
      | some v => {v}
      | none => {"latest"}
  if a.will_add_latest then insert "latest" base else base

/-- A token is well-formed when its decoded form splits at `':'` into
exactly two parts, i.e. contains exactly one `':'` — the condition under
which `user, pswd = creds.split(':')` succeeds. -/
def token_wf (c : Collab) (ad : AuthData) : Bool :=
  (py_split_colon (c.b64decode ad.authorizationToken)).length == 2

/-- The events of one well-formed Amazon login/build/push cycle (one
iteration of the loop at lines 199-204); empty for a malformed token,
whose iteration issues nothing before the `ValueError`. -/
def auth_cycle (c : Collab) (path : String) (will_push : Bool) (repo : String)
    (tags : List String) (bargs : List (String × String)) (ad : AuthData) : List Ev :=
  let registry := py_replace ad.proxyEndpoint "https://" ""
  match py_split_colon (c.b64decode ad.authorizationToken) with
  | [user, pswd] =>
    Ev.login (some user) (some pswd) registry ::
      _build path registry repo tags bargs c.push_lines will_push
  | _ => []

/-- Recogniser for build operations in a trace. -/
def is_build_ev : Ev → Bool
  | .build _ _ _ _ _ => true
  | _ => false

/-- Concrete run inputs used by counterexamples and witnesses: the
default flag values (no flag supplied beyond the defaults,
`--no-login` given so the vanilla trace stays minimal). -/
def args0 : Args where
  env := some ".env"
  path := "."
  tags := none
  will_add_latest := false
  repository := none
  registry := none
  will_push := false
  will_login := false
  login_user := none
  login_password := none
  is_amazon_mode := false
  amazon_region := none
  amazon_registry_ids := none

/-- Collaborators that answer every call trivially. -/
def collab0 : Collab where
  b64decode := fun s => s
  auth_response := fun _ => []
  push_lines := fun _ _ => []

/-- Collaborators returning two authorization entries, the first with a
well-formed token and the second with a token containing no `':'`. -/
def collab_good_then_bad : Collab where
  b64decode := fun s => s
  auth_response := fun _ => [⟨"https://reg1.example", "u1:p1"⟩, ⟨"https://reg2.example", "badtoken"⟩]
  push_lines := fun _ _ => []

/-- Collaborators returning a single authorization entry whose token
contains no `':'`. -/
def collab_bad_only : Collab where
  b64decode := fun s => s
  auth_response := fun _ => [⟨"https://reg1.example", "badtoken"⟩]
  push_lines := fun _ _ => []

/-- Collaborators returning two well-formed authorization entries. -/
def collab_two_good : Collab where
  b64decode := fun s => s
  auth_response := fun _ => [⟨"https://reg1.example", "u1:p1"⟩, ⟨"https://reg2.example", "u2:p2"⟩]
  push_lines := fun _ _ => ["progress"]

/-! Helper lemmas. -/

lemma string_eq_of_data {a b : String} (h : a.data = b.data) : a = b := by
  cases a; cases b; exact congrArg String.mk h

lemma toFinset_dedup_list (l : List String) : l.dedup.toFinset = l.toFinset := by
  ext x; simp [List.mem_dedup]

lemma toFinset_add_latest (base : List String) :
    (if "latest" ∈ base then base else base ++ ["latest"]).toFinset =
      insert "latest" base.toFinset := by
  by_cases hb : "latest" ∈ base
  · simp [hb, Finset.insert_eq_self.mpr (List.mem_toFinset.mpr hb)]
  · simp [hb, List.toFinset_append, Finset.insert_eq, Finset.union_comm]

/-! Claims C1, C3, C4, C5. -/

/-- C1, counterexample. The claim says a run whose requested variable file
exists nowhere fails fast with a configuration error before any
credential, build, or push operation. At the default flags (`-e .env`)
with no such file anywhere, the run instead finishes without error and a
build operation is performed. -/
theorem c1_counterexample_missing_env_file_run_proceeds :
    (run_main (fun _ => none) args0 [] collab0).2 = none ∧
      Ev.build "." "/:latest" true true [] ∈ (run_main (fun _ => none) args0 [] collab0).1 := by
  decide

/-- C1, amended: when the requested variable file does not exist in the
working directory or any ancestor, `find_dotenv` returns an empty path
and `load_dotenv` loads nothing — the run proceeds with the environment
unchanged (no configuration error), exactly as if env-file loading had
been disabled. -/
theorem c1_missing_env_file_is_silently_skipped (fs : String → Option Env) (a : Args)
    (env0 : Env) (c : Collab) (name : String) (ha : a.env = some name) (hn : name ≠ "")
    (hf : fs name = none) :
    load_dotenv_step fs a env0 = env0 ∧
      run_main fs a env0 c = run_main fs { a with env := none } env0 c := by
  obtain ⟨e, p, t, wal, rep, reg, wp, wl, lu, lp, iam, ar, ids⟩ := a
  simp only at ha
  subst ha
  constructor
  · simp [load_dotenv_step, hn, hf]
  · simp [run_main, run_amazon, run_vanilla, resolve_repository, resolve_registry,
      resolve_tags, build_args, registry_scope, load_dotenv_step, hn, hf]

/-- C1, witness for the amended theorem. -/
theorem c1_missing_env_file_is_silently_skipped_witness :
    load_dotenv_step (fun _ => none) args0 [] = [] ∧
      run_main (fun _ => none) args0 [] collab0 =
        run_main (fun _ => none) { args0 with env := none } [] collab0 :=
  c1_missing_env_file_is_silently_skipped (fun _ => none) args0 [] collab0 ".env"
    rfl (by decide) rfl

/-- C3: the spec (and the flag's own help text) says the Amazon region
resolves to the `--amazon-region` flag, else the `BUILD_AMAZON_REGION`
environment variable, else the built-in default; but line 193 passes
`region_name=args.amazon_region` directly, never reading
`BUILD_AMAZON_REGION`. With the flag absent and the variable set to
`us-east-1`, the ECR client is created with no region at all. -/
theorem c3_amazon_region_environment_variable_ignored :
    Ev.ecr_client none ∈
      (run_main (fun _ => none) { args0 with is_amazon_mode := true }
        [("BUILD_AMAZON_REGION", "us-east-1")] collab0).1 ∧
      Ev.ecr_client (some "us-east-1") ∉
        (run_main (fun _ => none) { args0 with is_amazon_mode := true }
          [("BUILD_AMAZON_REGION", "us-east-1")] collab0).1 := by
  decide

/-- C4: for every flag/environment combination, the tag set the code
resolves (lines 183-185) equals the reference definition written from the
spec's words: flag-supplied tags verbatim as a set, else the singleton
`BUILD_TAG` value, else `{"latest"}`, with `"latest"` united in when the
always-latest flag is set. -/
theorem c4_resolved_tag_set_matches_reference (a : Args) (env : Env) :
    (resolve_tags a env).toFinset = reference_tag_set a env := by
  unfold resolve_tags reference_tag_set
  have hsingle : ∀ v : String, a.will_add_latest = true →
      (if a.will_add_latest = true then
          (if "latest" ∈ [v] then [v] else [v] ++ ["latest"]) else [v]).toFinset =
        (if a.will_add_latest = true then insert "latest" ({v} : Finset String) else {v}) := by
    intro v hw
    by_cases hv : "latest" = v
    · simp [hw, hv]
    · simp [hw, hv, Finset.pair_comm]
  cases ht : a.tags with
  | none =>
    cases hb : environ_get env "BUILD_TAG" with
    | none =>
      cases hw : a.will_add_latest with
      | false => simp [environ_get_d, hb, hw]
      | true => simp [environ_get_d, hb, hw]
    | some v =>
      cases hw : a.will_add_latest with
      | false => simp [environ_get_d, hb, hw]
      | true => simpa [environ_get_d, hb, hw] using hsingle v hw
  | some l =>
    cases l with
    | nil =>
      cases hb : environ_get env "BUILD_TAG" with
      | none =>
        cases hw : a.will_add_latest with
        | false => simp [environ_get_d, hb, hw]
        | true => simp [environ_get_d, hb, hw]
      | some v =>
        cases hw : a.will_add_latest with
        | false => simp [environ_get_d, hb, hw]
        | true => simpa [environ_get_d, hb, hw] using hsingle v hw
    | cons t ts =>
      cases hw : a.will_add_latest with
      | false => simp [hw, toFinset_dedup_list]
      | true =>
        by_cases hb : "latest" = t ∨ "latest" ∈ ts
        · have hmem : "latest" ∈ insert t ts.toFinset := by
            rcases hb with hb | hb
            · simp [hb]
            · simp [hb]
          simp [hw, hb, toFinset_dedup_list, Finset.insert_eq_self.mpr hmem]
        · simp [hw, hb, toFinset_dedup_list, List.toFinset_append, Finset.insert_eq,
            Finset.union_comm, Finset.union_assoc, Finset.union_left_comm]

/-- C5: the resolved tag set is never empty; omitting both the tag flag
and `BUILD_TAG` yields exactly `{"latest"}`; and the tag flag supplied
with zero values also yields a non-empty set. -/
theorem c5_tag_set_never_empty (a : Args) (env : Env) :
    resolve_tags a env ≠ [] ∧
      (a.tags = none → environ_get env "BUILD_TAG" = none →
        (resolve_tags a env).toFinset = {"latest"}) ∧
      (a.tags = some [] → resolve_tags a env ≠ []) := by
  have hne : resolve_tags a env ≠ [] := by
    have hbase : ∀ base : List String, base ≠ [] →
        (if a.will_add_latest = true then
          (if "latest" ∈ base then base else base ++ ["latest"]) else base) ≠ [] := by
      intro base hb
      split
      · split
        · exact hb
        · simp
      · exact hb
    unfold resolve_tags
    cases ht : a.tags with
    | none => exact hbase _ (by simp)
    | some l =>
      cases l with
      | nil => exact hbase _ (by simp)
      | cons t ts => exact hbase _ (by simp [List.dedup_eq_nil])
  refine ⟨hne, ?_, fun _ => hne⟩
  intro ht hb
  unfold resolve_tags
  cases hw : a.will_add_latest <;> simp [ht, hw, environ_get_d, hb]

/-- C5, witness: both tag flag and `BUILD_TAG` omitted gives exactly
`{"latest"}`, and the tag flag with zero values still gives a non-empty
set. -/
theorem c5_tag_set_never_empty_witness :
    resolve_tags args0 [] ≠ [] ∧
      (resolve_tags args0 []).toFinset = {"latest"} ∧
      resolve_tags { args0 with tags := some [] } [] ≠ [] :=
  ⟨(c5_tag_set_never_empty args0 []).1,
    (c5_tag_set_never_empty args0 []).2.1 rfl rfl,
    (c5_tag_set_never_empty { args0 with tags := some [] } []).2.2 rfl⟩

/-! Helper lemmas about the Amazon per-entry loop. -/

lemma amazon_cycles_cons_wf (c : Collab) (path : String) (wp : Bool) (repo : String)
    (tags : List String) (bargs : List (String × String)) (ad : AuthData)
    (rest : List AuthData) (h : token_wf c ad = true) :
    amazon_cycles c path wp repo tags bargs (ad :: rest) =
      (auth_cycle c path wp repo tags bargs ad ++
        (amazon_cycles c path wp repo tags bargs rest).1,
       (amazon_cycles c path wp repo tags bargs rest).2) := by
  have h2 : (py_split_colon (c.b64decode ad.authorizationToken)).length = 2 := by
    simpa [token_wf] using h
  rcases hl : py_split_colon (c.b64decode ad.authorizationToken) with _ | ⟨u, _ | ⟨p, _ | t⟩⟩
  · simp [hl] at h2
  · simp [hl] at h2
  · simp [amazon_cycles, auth_cycle, hl]
  · simp [hl] at h2

lemma amazon_cycles_cons_malformed (c : Collab) (path : String) (wp : Bool) (repo : String)
    (tags : List String) (bargs : List (String × String)) (ad : AuthData)
    (rest : List AuthData) (h : token_wf c ad = false) :
    amazon_cycles c path wp repo tags bargs (ad :: rest) =
      ([], some "ValueError: credential token does not unpack into user, pswd") := by
  have h2 : (py_split_colon (c.b64decode ad.authorizationToken)).length ≠ 2 := by
    simpa [token_wf] using h
  rcases hl : py_split_colon (c.b64decode ad.authorizationToken) with _ | ⟨u, _ | ⟨p, _ | t⟩⟩
  · simp [amazon_cycles, hl]
  · simp [amazon_cycles, hl]
  · exact absurd (by simp [hl]) h2
  · simp [amazon_cycles, hl]

lemma amazon_cycles_err_of_malformed (c : Collab) (path : String) (wp : Bool) (repo : String)
    (tags : List String) (bargs : List (String × String)) :
    ∀ l : List AuthData, (∃ ad ∈ l, token_wf c ad = false) →
      (amazon_cycles c path wp repo tags bargs l).2.isSome = true := by
  intro l
  induction l with
  | nil => simp
  | cons ad rest ih =>
    intro h
    by_cases had : token_wf c ad = true
    · rw [amazon_cycles_cons_wf c path wp repo tags bargs ad rest had]
      rcases h with ⟨x, hx, hxf⟩
      rcases List.mem_cons.mp hx with hx | hx
      · subst hx
        exact absurd had (by simp [hxf])
      · exact ih ⟨x, hx, hxf⟩
    · rw [amazon_cycles_cons_malformed c path wp repo tags bargs ad rest
        (Bool.not_eq_true _ ▸ had)]
      rfl

lemma amazon_cycles_all_wf (c : Collab) (path : String) (wp : Bool) (repo : String)
    (tags : List String) (bargs : List (String × String)) :
    ∀ l : List AuthData, (∀ ad ∈ l, token_wf c ad = true) →
      amazon_cycles c path wp repo tags bargs l =
        ((l.map (auth_cycle c path wp repo tags bargs)).flatten, none) := by
  intro l
  induction l with
  | nil => intro _; simp [amazon_cycles]
  | cons ad rest ih =>
    intro h
    rw [amazon_cycles_cons_wf c path wp repo tags bargs ad rest (h ad (by simp)),
      ih (fun x hx => h x (by simp [hx]))]
    simp

/-! Claims C2 and C7. -/

/-- C2, counterexample. The claim requires the abort to happen before any
build operation for every position of the malformed entry, including when
earlier entries are well-formed. With a response whose first token is
well-formed and whose second decodes without a `':'`, the run does abort,
but a build for the first entry has already been invoked. -/
theorem c2_counterexample_build_runs_before_later_malformed_entry :
    (run_main (fun _ => none) { args0 with is_amazon_mode := true } [] collab_good_then_bad).2.isSome = true ∧
      Ev.build "." "reg1.example/:latest" true true [] ∈
        (run_main (fun _ => none) { args0 with is_amazon_mode := true } [] collab_good_then_bad).1 := by
  decide

/-- C2, amended: in Amazon mode, a token that decodes without exactly one
`':'` separator is fatal — the run aborts with an error when the loop
reaches the first malformed entry; if the malformed entry is the first
one, this happens before any build operation is invoked, while
well-formed entries earlier in the list have already had their full
login/build/push cycle executed. -/
theorem c2_malformed_token_aborts_run (fs : String → Option Env) (a : Args) (env0 : Env)
    (c : Collab) (ham : a.is_amazon_mode = true) :
    ((∃ ad ∈ c.auth_response (registry_scope a), token_wf c ad = false) →
      (run_main fs a env0 c).2.isSome = true) ∧
    (∀ ad rest, c.auth_response (registry_scope a) = ad :: rest → token_wf c ad = false →
      (run_main fs a env0 c).1.filter is_build_ev = []) := by
  constructor
  · intro h
    simp only [run_main, ham, if_pos, run_amazon]
    exact amazon_cycles_err_of_malformed c a.path a.will_push _ _ _ _ h
  · intro ad rest hresp had
    simp only [run_main, ham, if_pos, run_amazon, hresp]
    rw [amazon_cycles_cons_malformed _ _ _ _ _ _ _ _ had]
    simp [is_build_ev]

/-- C2, witness for the amended theorem: a response whose only entry has a
token with no `':'` aborts the run with no build operation at all. -/
theorem c2_malformed_token_aborts_run_witness :
    (run_main (fun _ => none) { args0 with is_amazon_mode := true } [] collab_bad_only).2.isSome = true ∧
      (run_main (fun _ => none) { args0 with is_amazon_mode := true } [] collab_bad_only).1.filter
        is_build_ev = [] :=
  ⟨(c2_malformed_token_aborts_run (fun _ => none) { args0 with is_amazon_mode := true } []
      collab_bad_only rfl).1
      ⟨⟨"https://reg1.example", "badtoken"⟩, by decide, by decide⟩,
    (c2_malformed_token_aborts_run (fun _ => none) { args0 with is_amazon_mode := true } []
      collab_bad_only rfl).2
      ⟨"https://reg1.example", "badtoken"⟩ [] rfl (by decide)⟩

/-- C7: in Amazon mode the vanilla-mode `--registry` value and `--no-login`
flag are never read — two runs differing only in those two fields issue
exactly the same operations with the same arguments and end the same way. -/
theorem c7_amazon_mode_ignores_registry_and_login_flags (fs : String → Option Env)
    (a : Args) (env0 : Env) (c : Collab) (r : Option String) (b : Bool)
    (ham : a.is_amazon_mode = true) :
    run_main fs { a with registry := r, will_login := b } env0 c = run_main fs a env0 c := by
  obtain ⟨e, p, t, wal, rep, reg, wp, wl, lu, lp, iam, ar, ids⟩ := a
  simp only at ham
  subst ham
  rfl

/-- C7, witness. -/
theorem c7_amazon_mode_ignores_registry_and_login_flags_witness :
    run_main (fun _ => none)
        { { args0 with is_amazon_mode := true } with registry := some "other", will_login := false }
        [] collab_two_good =
      run_main (fun _ => none) { args0 with is_amazon_mode := true } [] collab_two_good :=
  c7_amazon_mode_ignores_registry_and_login_flags (fun _ => none)
    { args0 with is_amazon_mode := true } [] collab_two_good (some "other") false rfl

/-! Helper lemmas about the build/push loop. -/

lemma mem_build_of_mem_tags (path registry repo : String) (tags : List String)
    (bargs : List (String × String)) (pl : String → String → List String) (wp : Bool)
    {tag : String} (h : tag ∈ tags) :
    Ev.build path (registry ++ "/" ++ repo ++ ":" ++ tag) true true bargs ∈
      _build path registry repo tags bargs pl wp := by
  simp only [_build, List.mem_flatten, List.mem_map]
  exact ⟨_, ⟨tag, h, rfl⟩, by simp⟩

/-! Claims C9 and C10. -/

/-- C9: for every tag in the tag list handed to the orchestrator, `_build`
issues a build operation with the context path, the image reference
`registry/repository:tag`, forced intermediate-container removal and
base-image pull, and the build-argument map; a push operation for the same
`registry/repository` at that tag is issued if and only if the push flag
is set, and each streamed progress record of that push is forwarded to
the log sink at debug level. -/
theorem c9_build_then_push_per_tag (path registry repo : String) (tags : List String)
    (bargs : List (String × String)) (pl : String → String → List String) (wp : Bool)
    (tag : String) (h : tag ∈ tags) :
    Ev.build path (registry ++ "/" ++ repo ++ ":" ++ tag) true true bargs ∈
      _build path registry repo tags bargs pl wp ∧
    (Ev.push (registry ++ "/" ++ repo) tag true ∈ _build path registry repo tags bargs pl wp ↔
      wp = true) ∧
    (wp = true → ∀ line ∈ pl (registry ++ "/" ++ repo) tag,
      Ev.log_debug line ∈ _build path registry repo tags bargs pl wp) := by
  refine ⟨mem_build_of_mem_tags path registry repo tags bargs pl wp h, ?_, ?_⟩
  · cases wp with
    | false => simp [_build]
    | true =>
      simp only [eq_self_iff_true, iff_true]
      simp only [_build, List.mem_flatten, List.mem_map]
      exact ⟨_, ⟨tag, h, rfl⟩, by simp⟩
  · intro hwp line hl
    subst hwp
    simp only [_build, List.mem_flatten, List.mem_map]
    refine ⟨_, ⟨tag, h, rfl⟩, ?_⟩
    simp [hl]

/-- C9, witness. -/
theorem c9_build_then_push_per_tag_witness :
    Ev.build "." ("reg" ++ "/" ++ "r" ++ ":" ++ "v1") true true [] ∈
      _build "." "reg" "r" ["v1"] [] (fun _ _ => ["progress"]) true ∧
    (Ev.push ("reg" ++ "/" ++ "r") "v1" true ∈
      _build "." "reg" "r" ["v1"] [] (fun _ _ => ["progress"]) true ↔ true = true) ∧
    (true = true → ∀ line ∈ (fun _ _ => ["progress"] : String → String → List String)
        ("reg" ++ "/" ++ "r") "v1",
      Ev.log_debug line ∈ _build "." "reg" "r" ["v1"] [] (fun _ _ => ["progress"]) true) :=
  c9_build_then_push_per_tag "." "reg" "r" ["v1"] [] (fun _ _ => ["progress"]) true "v1"
    (by decide)

/-- C10: a repository supplied by neither flag nor `BUILD_REPOSITORY`
resolves to the empty string, as does (in vanilla mode) a registry
supplied by neither flag nor `BUILD_REGISTRY`; the vanilla run raises no
error of its own, and with both absent the images built are references of
the degenerate form `/:tag`. -/
theorem c10_absent_repository_and_registry_resolve_empty (fs : String → Option Env)
    (a : Args) (env0 : Env) (c : Collab) :
    (a.repository = none →
      environ_get (load_dotenv_step fs a env0) "BUILD_REPOSITORY" = none →
      resolve_repository a (load_dotenv_step fs a env0) = "") ∧
    (a.registry = none →
      environ_get (load_dotenv_step fs a env0) "BUILD_REGISTRY" = none →
      resolve_registry a (load_dotenv_step fs a env0) = "") ∧
    (a.is_amazon_mode = false → (run_main fs a env0 c).2 = none) ∧
    (a.is_amazon_mode = false → a.repository = none → a.registry = none →
      environ_get (load_dotenv_step fs a env0) "BUILD_REPOSITORY" = none →
      environ_get (load_dotenv_step fs a env0) "BUILD_REGISTRY" = none →
      ∀ tag ∈ resolve_tags a (load_dotenv_step fs a env0),
        Ev.build a.path ("/:" ++ tag) true true (build_args (load_dotenv_step fs a env0)) ∈
          (run_main fs a env0 c).1) := by
  refine ⟨?_, ?_, ?_, ?_⟩
  · intro hrep hget
    simp [resolve_repository, py_or_str, environ_get_d, hrep, hget]
  · intro hreg hget
    simp [resolve_registry, py_or_str, environ_get_d, hreg, hget]
  · intro hvan
    simp [run_main, run_vanilla, hvan]
  · intro hvan hrep hreg hgrep hgreg tag htag
    have hrepo' : resolve_repository a (load_dotenv_step fs a env0) = "" := by
      simp [resolve_repository, py_or_str, environ_get_d, hrep, hgrep]
    have hreg' : resolve_registry a (load_dotenv_step fs a env0) = "" := by
      simp [resolve_registry, py_or_str, environ_get_d, hreg, hgreg]
    have hstr : ("" ++ "/" ++ "" ++ ":" ++ tag) = "/:" ++ tag := rfl
    have hb := mem_build_of_mem_tags a.path "" ""
      (resolve_tags a (load_dotenv_step fs a env0))
      (build_args (load_dotenv_step fs a env0)) c.push_lines a.will_push htag
    rw [hstr] at hb
    simp only [run_main, run_vanilla, hvan, Bool.false_eq_true, if_false]
    rw [hrepo', hreg']
    exact List.mem_append_right _ hb

/-- C10, witness: no repository or registry from flag or environment, the
vanilla run finishes without error and builds the image reference
`/:latest`. -/
theorem c10_absent_repository_and_registry_resolve_empty_witness :
    resolve_repository args0 (load_dotenv_step (fun _ => none) args0 []) = "" ∧
      resolve_registry args0 (load_dotenv_step (fun _ => none) args0 []) = "" ∧
      (run_main (fun _ => none) args0 [] collab0).2 = none ∧
      Ev.build "." ("/:" ++ "latest") true true
          (build_args (load_dotenv_step (fun _ => none) args0 [])) ∈
        (run_main (fun _ => none) args0 [] collab0).1 :=
  ⟨(c10_absent_repository_and_registry_resolve_empty (fun _ => none) args0 [] collab0).1
      rfl (by decide),
    (c10_absent_repository_and_registry_resolve_empty (fun _ => none) args0 [] collab0).2.1
      rfl (by decide),
    (c10_absent_repository_and_registry_resolve_empty (fun _ => none) args0 [] collab0).2.2.1
      rfl,
    (c10_absent_repository_and_registry_resolve_empty (fun _ => none) args0 [] collab0).2.2.2
      rfl rfl rfl (by decide) (by decide) "latest" (by decide)⟩

/-! Helper lemmas about build-argument keys. -/

lemma build_arg_pref_length : ("BUILD_ARG_" : String).data.length = 10 := rfl

lemma startswith_build_arg_iff (k : String) :
    startswith k "BUILD_ARG_" = true ↔ k.data.take 10 = ("BUILD_ARG_" : String).data := by
  simp [startswith, build_arg_pref_length]

lemma build_arg_key_reconstruct {n : String} (h : startswith n "BUILD_ARG_" = true) :
    "BUILD_ARG_" ++ String.mk (n.data.drop 10) = n := by
  apply string_eq_of_data
  rw [String.data_append]
  have ht := (startswith_build_arg_iff n).mp h
  calc ("BUILD_ARG_" : String).data ++ (String.mk (n.data.drop 10)).data
      = n.data.take 10 ++ n.data.drop 10 := by rw [ht]
    _ = n.data := List.take_append_drop 10 n.data

lemma build_args_mem_iff (env : Env) (k v : String) :
    (k, v) ∈ build_args env ↔ ("BUILD_ARG_" ++ k, v) ∈ env := by
  constructor
  · intro h
    simp only [build_args, List.mem_map, List.mem_filter] at h
    obtain ⟨⟨n, w⟩, ⟨hmem, hpred⟩, heq⟩ := h
    cases heq
    rw [build_arg_key_reconstruct hpred]
    exact hmem
  · intro h
    simp only [build_args, List.mem_map, List.mem_filter]
    refine ⟨("BUILD_ARG_" ++ k, v), ⟨h, ?_⟩, ?_⟩
    · rw [startswith_build_arg_iff, String.data_append]
      have := List.take_left ("BUILD_ARG_" : String).data k.data
      rwa [build_arg_pref_length] at this
    · have hdrop : (("BUILD_ARG_" ++ k) : String).data.drop 10 = k.data := by
        rw [String.data_append]
        have := List.drop_left ("BUILD_ARG_" : String).data k.data
        rwa [build_arg_pref_length] at this
      rw [hdrop]

lemma build_args_keys_nodup (env : Env) (h : (env.map Prod.fst).Nodup) :
    ((build_args env).map Prod.fst).Nodup := by
  have h1 : ((env.filter fun kv => startswith kv.1 "BUILD_ARG_").map Prod.fst).Nodup :=
    h.sublist ((List.filter_sublist env).map Prod.fst)
  have h2 : (build_args env).map Prod.fst =
      ((env.filter fun kv => startswith kv.1 "BUILD_ARG_").map Prod.fst).map
        (fun n => String.mk (n.data.drop 10)) := by
    simp [build_args, List.map_map]
  rw [h2]
  refine h1.map_on ?_
  intro x hx y hy hxy
  have hsx : startswith x "BUILD_ARG_" = true := by
    obtain ⟨kv, hkv, rfl⟩ := List.mem_map.mp hx
    exact (List.mem_filter.mp hkv).2
  have hsy : startswith y "BUILD_ARG_" = true := by
    obtain ⟨kv, hkv, rfl⟩ := List.mem_map.mp hy
    exact (List.mem_filter.mp hkv).2
  calc x = "BUILD_ARG_" ++ String.mk (x.data.drop 10) := (build_arg_key_reconstruct hsx).symm
    _ = "BUILD_ARG_" ++ String.mk (y.data.drop 10) := by rw [hxy]
    _ = y := build_arg_key_reconstruct hsy

/-! Claims C6 and C8. -/

/-- C6: for every process environment (variable names unique), the
build-argument map contains an entry `(k, v)` exactly when the
environment contains `BUILD_ARG_k = v` — so every prefixed variable
appears with the prefix stripped, nothing else leaks in — and its keys
are pairwise distinct (exactly one entry per prefixed variable). -/
theorem c6_build_arg_extraction (env : Env) (h : (env.map Prod.fst).Nodup) :
    (∀ k v : String, (k, v) ∈ build_args env ↔ ("BUILD_ARG_" ++ k, v) ∈ env) ∧
      ((build_args env).map Prod.fst).Nodup :=
  ⟨fun k v => build_args_mem_iff env k v, build_args_keys_nodup env h⟩

/-- C6, witness: the spec's own scenario environment. -/
theorem c6_build_arg_extraction_witness :
    (∀ k v : String,
      (k, v) ∈ build_args
          [("BUILD_ARG_SG_BASE_IMAGE", "registry/sg/base:latest"), ("HOME", "/root")] ↔
        ("BUILD_ARG_" ++ k, v) ∈
          [("BUILD_ARG_SG_BASE_IMAGE", "registry/sg/base:latest"), ("HOME", "/root")]) ∧
      ((build_args
          [("BUILD_ARG_SG_BASE_IMAGE", "registry/sg/base:latest"), ("HOME", "/root")]).map
        Prod.fst).Nodup :=
  c6_build_arg_extraction
    [("BUILD_ARG_SG_BASE_IMAGE", "registry/sg/base:latest"), ("HOME", "/root")] (by decide)

/-- C8, counterexample. The claim quantifies over every supplied
registry-ID list and every authorization response. With the flag supplied
with zero IDs (`--amazon-registry-ids` with no values, a falsy `[]`), the
single authorization call is unscoped rather than scoped to the supplied
list; and with a response whose one entry has a malformed token, no
login/build/push cycle is performed for that entry at all. -/
theorem c8_counterexample_empty_ids_and_malformed_entry :
    (Ev.get_auth_token (some ([] : List String)) ∉
        (run_main (fun _ => none)
          { args0 with is_amazon_mode := true, amazon_registry_ids := some [] }
          [] collab0).1 ∧
      Ev.get_auth_token none ∈
        (run_main (fun _ => none)
          { args0 with is_amazon_mode := true, amazon_registry_ids := some [] }
          [] collab0).1) ∧
    ((run_main (fun _ => none)
        { args0 with is_amazon_mode := true, amazon_registry_ids := some ["111"] }
        [] collab_bad_only).1.filter is_build_ev = [] ∧
      (run_main (fun _ => none)
        { args0 with is_amazon_mode := true, amazon_registry_ids := some ["111"] }
        [] collab_bad_only).2.isSome = true) := by
  decide

/-- C8, amended: in Amazon mode with a supplied nonempty registry-ID
list, exactly one authorization call is made, scoped to that list (a
supplied empty list yields a single unscoped call instead); and for every
response all of whose tokens are well-formed, one full
login-then-build(-then-push) cycle over the whole tag set is performed
per entry of the `authorizationData` list, in list order (a malformed
token aborts the run, truncating the cycle of its own entry and of every
later one). -/
theorem c8_one_scoped_auth_call_then_cycle_per_entry (fs : String → Option Env) (a : Args)
    (env0 : Env) (c : Collab) (ids : List String) (ham : a.is_amazon_mode = true)
    (hids : a.amazon_registry_ids = some ids) (hne : ids ≠ [])
    (hwf : ∀ ad ∈ c.auth_response (some ids), token_wf c ad = true) :
    run_main fs a env0 c =
      (Ev.ecr_client a.amazon_region :: Ev.get_auth_token (some ids) ::
        ((c.auth_response (some ids)).map
          (auth_cycle c a.path a.will_push
            (resolve_repository a (load_dotenv_step fs a env0))
            (resolve_tags a (load_dotenv_step fs a env0))
            (build_args (load_dotenv_step fs a env0)))).flatten,
       none) := by
  have hscope : registry_scope a = some ids := by
    cases ids with
    | nil => exact absurd rfl hne
    | cons i is => simp [registry_scope, hids]
  simp only [run_main, ham, if_pos, run_amazon, hscope]
  rw [amazon_cycles_all_wf c a.path a.will_push _ _ _ _ hwf]

/-- C8, witness: the spec's scenario — two supplied registry IDs, one
authorization call scoped to both, a two-entry response, two full
login/build cycles in response order. -/
theorem c8_one_scoped_auth_call_then_cycle_per_entry_witness :
    run_main (fun _ => none)
        { args0 with is_amazon_mode := true, amazon_registry_ids := some ["111", "222"] }
        [] collab_two_good =
      ([Ev.ecr_client none, Ev.get_auth_token (some ["111", "222"]),
        Ev.login (some "u1") (some "p1") "reg1.example",
        Ev.build "." "reg1.example/:latest" true true [],
        Ev.login (some "u2") (some "p2") "reg2.example",
        Ev.build "." "reg2.example/:latest" true true []],
       none) := by
  rw [c8_one_scoped_auth_call_then_cycle_per_entry (fun _ => none)
    { args0 with is_amazon_mode := true, amazon_registry_ids := some ["111", "222"] }
    [] collab_two_good ["111", "222"] rfl rfl (by decide) (by decide)]
  decide
